import Mathlib

/-!
# TastyBytes Streamlit dashboard — verification of the spec claims

Shallow embedding of `src/app_snowflake_aula.py`:
* the Result Set rows produced by the menu query (tab 1),
* the three-condition filter `df_filtrado` (tab 2, lines 242–247),
* the filter metrics (lines 253–255),
* the top-10-by-margin grouping (line 170),
* the TTL query cache and the memoized connection (lines 28–45,
  semantics of the Streamlit decorators modelled from the spec),
* the script-level error-handling flow (sidebar / tab 1 / tab 3),
* the CSV export payload (lines 272–278 and 332–338).

Numeric columns (pandas float64) are embedded as rationals `ℚ`; all the
claims about them are order/arithmetic claims, not claims about rounding.
-/

/-- One row of the dashboard's Result Set, with the seven columns selected by
the tab-1 menu query (`MENU_ITEM_NAME, ITEM_CATEGORY, ITEM_SUBCATEGORY,
COST_OF_GOODS_USD, SALE_PRICE_USD, PROFIT, MARGIN_PERCENT`). -/
structure Row where
  MENU_ITEM_NAME : String
  ITEM_CATEGORY : String
  ITEM_SUBCATEGORY : String
  COST_OF_GOODS_USD : ℚ
  SALE_PRICE_USD : ℚ
  PROFIT : ℚ
  MARGIN_PERCENT : ℚ
deriving DecidableEq, Repr

/-- A Result Set: an ordered sequence of rows. -/
abbrev ResultSet := List Row

/-- The Filter Parameters chosen in tab 2: the two multiselect widgets
(`categorias`, `subcategorias`) and the price slider `(preco_min, preco_max)`. -/
structure FilterParams where
  categorias : List String
  subcategorias : List String
  preco_min : ℚ
  preco_max : ℚ
deriving DecidableEq, Repr

/-- The row predicate of the tab-2 filter (lines 242–247):
`ITEM_CATEGORY.isin(categorias) & ITEM_SUBCATEGORY.isin(subcategorias)
 & SALE_PRICE_USD >= preco_min & SALE_PRICE_USD <= preco_max`. -/
def rowPred (F : FilterParams) (r : Row) : Bool :=
  F.categorias.contains r.ITEM_CATEGORY &&
  F.subcategorias.contains r.ITEM_SUBCATEGORY &&
  decide (F.preco_min ≤ r.SALE_PRICE_USD) &&
  decide (r.SALE_PRICE_USD ≤ F.preco_max)

/-- `df_filtrado = df[(isin categorias) & (isin subcategorias)
& (>= preco_min) & (<= preco_max)]` — the boolean-mask row selection of
lines 242–247. -/
def df_filtrado (df : ResultSet) (F : FilterParams) : ResultSet :=
  df.filter (rowPred F)

/-- Metric "Itens Filtrados" (line 253): `len(df_filtrado)`. -/
def itens_filtrados (df : ResultSet) (F : FilterParams) : ℕ :=
  (df_filtrado df F).length

/-- Metric "Receita Potencial" (line 254): `df_filtrado['SALE_PRICE_USD'].sum()`. -/
def receita_potencial (df : ResultSet) (F : FilterParams) : ℚ :=
  ((df_filtrado df F).map Row.SALE_PRICE_USD).sum

/-- Metric "Lucro Potencial" (line 255): `df_filtrado['PROFIT'].sum()`. -/
def lucro_potencial (df : ResultSet) (F : FilterParams) : ℚ :=
  ((df_filtrado df F).map Row.PROFIT).sum

/-- The comparison used by `nlargest(10, 'MARGIN_PERCENT')`: descending order
on `MARGIN_PERCENT` (ties kept in first-seen order, pandas `keep='first'`). -/
def marginGE (a b : Row) : Bool :=
  decide (b.MARGIN_PERCENT ≤ a.MARGIN_PERCENT)

/-- The Result Set stably sorted by `MARGIN_PERCENT` descending — the
intermediate order of `df.nlargest(10, 'MARGIN_PERCENT')`. -/
def sortedByMargin (df : ResultSet) : ResultSet :=
  df.mergeSort marginGE

/-- `top10 = df.nlargest(10, 'MARGIN_PERCENT')[['MENU_ITEM_NAME',
'MARGIN_PERCENT']]` (line 170): the first 10 rows in descending-margin order,
projected to name and margin. -/
def top10 (df : ResultSet) : List (String × ℚ) :=
  ((sortedByMargin df).take 10).map (fun r => (r.MENU_ITEM_NAME, r.MARGIN_PERCENT))

/-- The rows of the Result Set not selected by `nlargest(10, 'MARGIN_PERCENT')`. -/
def notTop10 (df : ResultSet) : ResultSet :=
  (sortedByMargin df).drop 10

/-!
## The query cache (`@st.cache_data(ttl=600)` on `run_query`, lines 41–45)

Modelled from the spec: the Streamlit decorator itself is library code not in
this repository; the spec describes it as a cache "keyed by the exact query
text", holding "a timestamp and a Result Set", "invalidated after a fixed
time-to-live" of 600 seconds.  Time is an abstract `ℕ` clock in seconds.
-/

/-- The fixed time-to-live of the query cache, in seconds (line 41). -/
def queryTTL : ℕ := 600

/-- Modelled from the spec: the state of the `st.cache_data` cache — one entry
per query text, each holding the storage timestamp and the cached Result Set. -/
structure QueryCache where
  entries : List (String × ℕ × ResultSet)
deriving Repr

/-- Look up the cache entry stored for a query text, if any. -/
def QueryCache.find (c : QueryCache) (q : String) : Option (ℕ × ResultSet) :=
  (c.entries.find? (fun e => e.1 == q)).map (·.2)

/-- Modelled from the spec: one call of `run_query(q)` at time `now` against
warehouse `w` and cache `c`.  Returns the Result Set, the new cache state, and
whether the query was executed against the warehouse (a network round-trip).
A cached entry is served while its age is below the TTL; otherwise the query
is re-executed and stored with a fresh timestamp. -/
def run_query (w : String → ResultSet) (now : ℕ) (q : String) (c : QueryCache) :
    ResultSet × QueryCache × Bool :=
  match c.find q with
  | some (t, r) =>
      if now < t + queryTTL then
        (r, c, false)
      else
        let r := w q
        (r, ⟨(q, now, r) :: c.entries.filter (fun e => !(e.1 == q))⟩, true)
  | none =>
      let r := w q
      (r, ⟨(q, now, r) :: c.entries.filter (fun e => !(e.1 == q))⟩, true)

/-!
## The connection cache (`@st.cache_resource` on `init_connection`, lines 28–39)

Modelled from the spec: `st.cache_resource` memoizes the connection handle
under a constant key for the lifetime of the process.
-/

/-- The externally supplied credentials read from `secrets.toml`
(lines 32–38). -/
structure Credentials where
  user : String
  password : String
  account : String
  warehouse : String
  database : String
  schemaName : String
  role : String
deriving DecidableEq, Repr

/-- Modelled from the spec: one call of `init_connection()`.  `connect` is the
external `snowflake.connector.connect`, `cache` the memoized handle (if any).
Returns the handle, the new cache state, and whether an authentication
(a fresh `connect` call) happened. -/
def init_connection {Conn : Type} (connect : Credentials → Conn)
    (creds : Credentials) (cache : Option Conn) : Conn × Option Conn × Bool :=
  match cache with
  | some h => (h, some h, false)
  | none =>
      let h := connect creds
      (h, some h, true)

/-- The connection-cache state after `n` calls of `init_connection`, starting
from the empty (fresh-process) cache. -/
def connCacheAfter {Conn : Type} (connect : Credentials → Conn)
    (creds : Credentials) : ℕ → Option Conn
  | 0 => none
  | n + 1 => (init_connection connect creds (connCacheAfter connect creds n)).2.1

/-!
## Script-level error flow (sidebar lines 62–79, tab 1 lines 124–135,
tab 3 lines 320–342)

The script is re-run top to bottom.  The sidebar wraps `init_connection` in
`try/except` and calls `st.stop()` on failure.  Tab 1 calls `run_query` on the
canned menu query with **no** `try/except`.  Tab 3 wraps the user query's
`run_query` in `try/except` and renders the error inline.
-/

/-- Outcome of one top-to-bottom run of the script. -/
inductive RunOutcome where
  /-- The sidebar showed the connection error and called `st.stop()`. -/
  | halted (errText : String) : RunOutcome
  /-- An exception escaped every `try/except`; the run aborts with a traceback. -/
  | crashed (errText : String) : RunOutcome
  /-- The script ran to completion; the list holds inline error texts shown. -/
  | rendered (inlineErrors : List String) : RunOutcome
deriving DecidableEq, Repr

/-- The external collaborators of one script run: the connection attempt and
the warehouse's response to each query text. -/
structure Env where
  connect : Except String Unit
  query : String → Except String ResultSet

/-- The canned menu query issued unconditionally by tab 1 (lines 125–135). -/
def menuQuery : String :=
  "SELECT MENU_ITEM_NAME, ITEM_CATEGORY, ITEM_SUBCATEGORY, COST_OF_GOODS_USD, SALE_PRICE_USD, (SALE_PRICE_USD - COST_OF_GOODS_USD) AS PROFIT, ROUND(((SALE_PRICE_USD - COST_OF_GOODS_USD) / SALE_PRICE_USD) * 100, 2) AS MARGIN_PERCENT FROM MENU"

/-- One top-to-bottom run of the script: sidebar connection check, tab 1's
unguarded canned query, then (if the tab-3 button was clicked) the guarded
ad-hoc query `queryText`. -/
def appRun (env : Env) (executeClicked : Bool) (queryText : String) : RunOutcome :=
  match env.connect with
  | .error e => .halted ("❌ Erro: " ++ e)
  | .ok _ =>
    match env.query menuQuery with
    | .error e => .crashed e
    | .ok _ =>
      if executeClicked then
        match env.query queryText with
        | .error e => .rendered ["❌ Erro ao executar query:", e]
        | .ok _ => .rendered []
      else
        .rendered []

/-!
## CSV export (`df_filtrado.to_csv(index=False).encode('utf-8')`, lines 272–278)

`to_csv` writes comma-separated lines, a header row first, each line terminated
by `'\n'`, quoting a cell (and doubling its quote characters) exactly when the
cell contains a comma, a quote, or a line break (the csv module's minimal
quoting).  The writer below is modelled on that format; the reader is an
ordinary CSV parser used to state the round-trip property.
-/

/-- Characters that force a CSV cell to be quoted. -/
def isCsvSpecial (c : Char) : Bool :=
  c = ',' || c = '"' || c = '\n' || c = '\r'

/-- The body of a quoted CSV cell: every quote character is doubled. -/
def quoteBody : List Char → List Char
  | [] => []
  | c :: s => if c = '"' then '"' :: '"' :: quoteBody s else c :: quoteBody s

/-- Serialize one CSV cell: quoted (with doubled quotes) exactly when the cell
contains a special character, verbatim otherwise. -/
def escapeField (s : List Char) : List Char :=
  if s.any isCsvSpecial then '"' :: (quoteBody s ++ ['"']) else s

/-- Serialize one CSV record: the cells, comma-separated. -/
def encodeRow : List (List Char) → List Char
  | [] => []
  | [f] => escapeField f
  | f :: r => escapeField f ++ ',' :: encodeRow r

/-- Serialize a CSV table: one `'\n'`-terminated line per record. -/
def encodeCsv : List (List (List Char)) → List Char
  | [] => []
  | r :: t => encodeRow r ++ '\n' :: encodeCsv t

/-- Parse the remainder of a quoted cell: a doubled quote is a literal quote,
a single quote closes the cell, end of input is a parse error. -/
def parseQuoted (acc : List Char) : List Char → Option (List Char × List Char)
  | [] => none
  | c :: rest =>
    if c = '"' then
      match rest with
      | [] => some (acc, [])
      | c' :: rest' =>
        if c' = '"' then parseQuoted (acc ++ ['"']) rest' else some (acc, rest)
    else
      parseQuoted (acc ++ [c]) rest

/-- Parse an unquoted cell: everything up to the next comma or line break. -/
def parseUnquoted : List Char → List Char × List Char
  | [] => ([], [])
  | c :: rest =>
    if c = ',' || c = '\n' then ([], c :: rest)
    else
      let p := parseUnquoted rest
      (c :: p.1, p.2)

/-- Parse one CSV cell, choosing the quoted or unquoted form. -/
def parseField (cs : List Char) : Option (List Char × List Char) :=
  match cs with
  | [] => some ([], [])
  | c :: rest =>
    if c = '"' then parseQuoted [] rest else some (parseUnquoted (c :: rest))

/-- Parse one CSV record up to and including its terminating `'\n'`.
`fuel` bounds the number of cells. -/
def parseRecord : ℕ → List Char → Option (List (List Char) × List Char)
  | 0, _ => none
  | fuel + 1, cs =>
    match parseField cs with
    | none => none
    | some (f, rest) =>
      match rest with
      | ',' :: rest' => (parseRecord fuel rest').map (fun p => (f :: p.1, p.2))
      | '\n' :: rest' => some ([f], rest')
      | _ => none

/-- Parse a sequence of `'\n'`-terminated CSV records until end of input.
`fuel` bounds the number of records. -/
def parseRows : ℕ → List Char → Option (List (List (List Char)))
  | _, [] => some []
  | 0, _ :: _ => none
  | fuel + 1, cs =>
    match parseRecord (cs.length + 1) cs with
    | none => none
    | some (r, rest) => (parseRows fuel rest).map (fun t => r :: t)

/-- Parse a whole CSV text. -/
def parseCsv (cs : List Char) : Option (List (List (List Char))) :=
  parseRows cs.length cs

/-- Serialize a table of string cells to a CSV text. -/
def encodeCsvStr (t : List (List String)) : String :=
  String.mk (encodeCsv (t.map (fun r => r.map String.data)))

/-- Parse a CSV text back into a table of string cells. -/
def parseCsvStr (s : String) : Option (List (List String)) :=
  (parseCsv s.data).map (fun t => t.map (fun r => r.map String.mk))

/-- The header row written by `to_csv` for the tab-2 dataframe: its seven
column names. -/
def csvHeader : List String :=
  ["MENU_ITEM_NAME", "ITEM_CATEGORY", "ITEM_SUBCATEGORY", "COST_OF_GOODS_USD",
   "SALE_PRICE_USD", "PROFIT", "MARGIN_PERCENT"]

/-- One data line of the export: the row's seven cells, numbers rendered by
their display formatting. -/
def rowCells (r : Row) : List String :=
  [r.MENU_ITEM_NAME, r.ITEM_CATEGORY, r.ITEM_SUBCATEGORY,
   toString r.COST_OF_GOODS_USD, toString r.SALE_PRICE_USD,
   toString r.PROFIT, toString r.MARGIN_PERCENT]

/-- The cell table serialized by `to_csv(index=False)`: the header row followed
by one line per row, no index column. -/
def csvTable (rows : ResultSet) : List (List String) :=
  csvHeader :: rows.map rowCells

/-- The tab-2 download payload (line 272): the filtered subset serialized as
CSV text (the `.encode('utf-8')` step maps this text to its UTF-8 bytes). -/
def csvPayload (df : ResultSet) (F : FilterParams) : String :=
  encodeCsvStr (csvTable (df_filtrado df F))

/-- The tab-2 download file name (line 276), stamped with the formatted
current date-time `ts`. -/
def exportFileName (ts : String) : String :=
  "tastybytes_filtrado_" ++ ts ++ ".csv"

/-!
## Concrete instances used by the examples and witnesses
-/

/-- A concrete 20-row Result Set with the two categories `Dessert` and `Main`,
used for the end-to-end filtering example. -/
def exampleDf : ResultSet :=
  [⟨"D1", "Dessert", "Sweet", 1, 4, 3, 50⟩,
   ⟨"D2", "Dessert", "Sweet", 1, 5, 4, 50⟩,
   ⟨"D3", "Dessert", "Sweet", 1, 6, 5, 50⟩,
   ⟨"D4", "Dessert", "Sweet", 1, 7, 6, 50⟩,
   ⟨"D5", "Dessert", "Sweet", 1, 8, 7, 50⟩,
   ⟨"D6", "Dessert", "Sweet", 1, 9, 8, 50⟩,
   ⟨"D7", "Dessert", "Sweet", 1, 10, 9, 50⟩,
   ⟨"D8", "Dessert", "Sweet", 1, 11, 10, 50⟩,
   ⟨"D9", "Dessert", "Sweet", 1, 3, 2, 50⟩,
   ⟨"D10", "Dessert", "Sweet", 1, 12, 11, 50⟩,
   ⟨"M1", "Main", "Hot", 2, 5, 3, 60⟩,
   ⟨"M2", "Main", "Hot", 2, 6, 4, 60⟩,
   ⟨"M3", "Main", "Hot", 2, 7, 5, 60⟩,
   ⟨"M4", "Main", "Hot", 2, 8, 6, 60⟩,
   ⟨"M5", "Main", "Hot", 2, 9, 7, 60⟩,
   ⟨"M6", "Main", "Hot", 2, 10, 8, 60⟩,
   ⟨"M7", "Main", "Hot", 2, 11, 9, 60⟩,
   ⟨"M8", "Main", "Hot", 2, 12, 10, 60⟩,
   ⟨"M9", "Main", "Hot", 2, 13, 11, 60⟩,
   ⟨"M10", "Main", "Hot", 2, 14, 12, 60⟩]

/-- Filter Parameters selecting category `Dessert`, all subcategories, and the
price range `[5, 10]`. -/
def exampleF : FilterParams := ⟨["Dessert"], ["Sweet", "Hot"], 5, 10⟩

/-- A concrete 12-row Result Set already in descending-margin order, used to
exhibit the top-10 selection on a concrete input. -/
def exampleSorted : ResultSet :=
  [⟨"T1", "C", "S", 1, 2, 1, 12⟩,
   ⟨"T2", "C", "S", 1, 2, 1, 11⟩,
   ⟨"T3", "C", "S", 1, 2, 1, 10⟩,
   ⟨"T4", "C", "S", 1, 2, 1, 9⟩,
   ⟨"T5", "C", "S", 1, 2, 1, 8⟩,
   ⟨"T6", "C", "S", 1, 2, 1, 7⟩,
   ⟨"T7", "C", "S", 1, 2, 1, 6⟩,
   ⟨"T8", "C", "S", 1, 2, 1, 5⟩,
   ⟨"T9", "C", "S", 1, 2, 1, 4⟩,
   ⟨"T10", "C", "S", 1, 2, 1, 3⟩,
   ⟨"T11", "C", "S", 1, 2, 1, 2⟩,
   ⟨"T12", "C", "S", 1, 2, 1, 1⟩]

/-- An environment whose connection succeeds but whose warehouse rejects every
query — the scenario of a failing canned query. -/
def badQueryEnv : Env :=
  ⟨.ok (), fun _ => .error "002003 (42S02): SQL compilation error"⟩

/-- An environment whose connection attempt fails. -/
def connFailEnv : Env :=
  ⟨.error "250001 (08001): Failed to connect to DB", fun _ => .ok []⟩

/-- An environment that accepts every query except the ad-hoc text
`SELECT * FROM NOPE`. -/
def tab3FailEnv : Env :=
  ⟨.ok (), fun s => if s = "SELECT * FROM NOPE" then .error "invalid identifier" else .ok []⟩

/-!
## Theorems

Helper lemmas first, then one theorem per claim.
-/

/-- Membership characterization of the tab-2 filter: a row is in `df_filtrado`
exactly when it is in the input and satisfies the three conditions. -/
lemma mem_df_filtrado (df : ResultSet) (F : FilterParams) (r : Row) :
    r ∈ df_filtrado df F ↔
      r ∈ df ∧ r.ITEM_CATEGORY ∈ F.categorias ∧ r.ITEM_SUBCATEGORY ∈ F.subcategorias ∧
        F.preco_min ≤ r.SALE_PRICE_USD ∧ r.SALE_PRICE_USD ≤ F.preco_max := by
  simp [df_filtrado, rowPred, List.mem_filter, List.elem_iff, and_assoc]

/-- C1: for every Result Set and Filter Parameters, the filtered subset is
exactly the rows satisfying the conjunction of the three independent
conditions (category membership, subcategory membership, inclusive price
range); hence its size is at most the input's, every retained row satisfies
all three conditions, and no excluded row satisfies all three. -/
theorem df_filtrado_exact (df : ResultSet) (F : FilterParams) :
    (df_filtrado df F).length ≤ df.length ∧
    ∀ r : Row, r ∈ df_filtrado df F ↔
      r ∈ df ∧ r.ITEM_CATEGORY ∈ F.categorias ∧ r.ITEM_SUBCATEGORY ∈ F.subcategorias ∧
        F.preco_min ≤ r.SALE_PRICE_USD ∧ r.SALE_PRICE_USD ≤ F.preco_max :=
  ⟨List.length_filter_le _ _, fun r => mem_df_filtrado df F r⟩

/-- C8: the price-range condition is inclusive at both endpoints — a row of
the Result Set whose price equals the selected minimum or the selected maximum
is retained, provided it satisfies the category and subcategory conditions
(and the range is nonempty, as the slider guarantees). -/
theorem price_range_inclusive (df : ResultSet) (F : FilterParams) (r : Row)
    (hmem : r ∈ df) (hcat : r.ITEM_CATEGORY ∈ F.categorias)
    (hsub : r.ITEM_SUBCATEGORY ∈ F.subcategorias)
    (hrange : r.SALE_PRICE_USD = F.preco_min ∨ r.SALE_PRICE_USD = F.preco_max)
    (hle : F.preco_min ≤ F.preco_max) :
    r ∈ df_filtrado df F := by
  rw [mem_df_filtrado df F r]
  rcases hrange with h | h
  · exact ⟨hmem, hcat, hsub, by rw [h], by rw [h]; exact hle⟩
  · exact ⟨hmem, hcat, hsub, by rw [h]; exact hle, by rw [h]⟩

/-- C8 witness: the Dessert row priced exactly at the selected minimum 5 is
retained by the example filter with range `[5, 10]`. -/
theorem price_range_inclusive_witness :
    (⟨"D2", "Dessert", "Sweet", 1, 5, 4, 50⟩ : Row) ∈ df_filtrado exampleDf exampleF :=
  price_range_inclusive exampleDf exampleF _ (by decide) (by decide) (by decide)
    (Or.inl (by decide)) (by decide)

/-- C9: filtering preserves row order — the filtered subset is a sublist of
the input Result Set, i.e. its rows appear in the same relative order. -/
theorem df_filtrado_sublist (df : ResultSet) (F : FilterParams) :
    List.Sublist (df_filtrado df F) df :=
  List.filter_sublist df

/-- C10: the filter is idempotent — applying it to its own output with the
same parameters returns that output unchanged. -/
theorem df_filtrado_idempotent (df : ResultSet) (F : FilterParams) :
    df_filtrado (df_filtrado df F) F = df_filtrado df F := by
  simp [df_filtrado, List.filter_filter]

/-- Summing a projection over the filtered rows equals summing the projection
over all rows, zeroing the rows the predicate rejects. -/
lemma sum_map_filter (f : Row → ℚ) (p : Row → Bool) :
    ∀ l : List Row,
      ((l.filter p).map f).sum = (l.map (fun r => if p r then f r else 0)).sum := by
  intro l
  induction l with
  | nil => simp
  | cons a l ih => by_cases h : p a <;> simp [List.filter_cons, h, ih]

/-- C6: the metrics displayed over the filtered subset are its row count, the
sum of its `SALE_PRICE_USD` column and the sum of its `PROFIT` column; and on
the concrete 20-row example with categories `{Dessert, Main}` filtered to
category `Dessert` and price range `[5, 10]`, the summed price column equals
the manually computed sum `5 + 6 + 7 + 8 + 9 + 10`. -/
theorem filter_metrics_sums (df : ResultSet) (F : FilterParams) :
    itens_filtrados df F = df.countP (rowPred F) ∧
    receita_potencial df F =
      (df.map (fun r => if rowPred F r then r.SALE_PRICE_USD else 0)).sum ∧
    lucro_potencial df F =
      (df.map (fun r => if rowPred F r then r.PROFIT else 0)).sum ∧
    exampleDf.length = 20 ∧
    itens_filtrados exampleDf exampleF = 6 ∧
    receita_potencial exampleDf exampleF = 5 + 6 + 7 + 8 + 9 + 10 := by
  refine ⟨?_, sum_map_filter _ _ df, sum_map_filter _ _ df, by decide, ?_, ?_⟩
  · simp [itens_filtrados, df_filtrado, List.countP_eq_length_filter]
  · simp +decide [itens_filtrados, df_filtrado, rowPred, exampleDf, exampleF]
  · simp +decide [receita_potencial, df_filtrado, rowPred, exampleDf, exampleF]
    norm_num

/-- C7: the top-10-by-margin grouping selects at most 10 rows, the
descending-margin reordering is a permutation of the Result Set (so the
selection is among exactly its rows), and every selected entry's margin is
greater than or equal to the margin of every non-selected row. -/
theorem top10_margem (df : ResultSet) :
    (top10 df).length ≤ 10 ∧
    List.Perm (sortedByMargin df) df ∧
    ∀ p ∈ top10 df, ∀ r ∈ notTop10 df, r.MARGIN_PERCENT ≤ p.2 := by
  have hsort : (sortedByMargin df).Pairwise (fun a b => marginGE a b = true) := by
    apply List.sorted_mergeSort
    · intro a b c hab hbc
      simp only [marginGE, decide_eq_true_eq] at *
      exact le_trans hbc hab
    · intro a b
      simp only [marginGE]
      rcases le_total b.MARGIN_PERCENT a.MARGIN_PERCENT with h | h <;> simp [h]
  refine ⟨?_, List.mergeSort_perm df marginGE, ?_⟩
  · simp [top10]
  · intro p hp r hr
    simp only [top10, List.mem_map] at hp
    obtain ⟨x, hx, hpx⟩ := hp
    have hsplit :
        List.Pairwise (fun a b => marginGE a b = true)
          (List.take 10 (sortedByMargin df) ++ List.drop 10 (sortedByMargin df)) := by
      rw [List.take_append_drop]
      exact hsort
    have hpair := (List.pairwise_append.mp hsplit).2.2
    have hge := hpair x hx r (by simpa [notTop10] using hr)
    simp only [marginGE, decide_eq_true_eq] at hge
    rw [← hpx]
    exact hge

/-- C7 witness: on the 12-row sorted example, the selected entry `("T1", 12)`
dominates the non-selected row `T12`, whose margin is 1. -/
theorem top10_margem_witness :
    (⟨"T12", "C", "S", 1, 2, 1, 1⟩ : Row).MARGIN_PERCENT ≤
      (("T1", (12 : ℚ)) : String × ℚ).2 := by
  have hs : sortedByMargin exampleSorted = exampleSorted := by
    unfold sortedByMargin
    exact List.mergeSort_of_sorted (by decide)
  exact (top10_margem exampleSorted).2.2 ("T1", 12)
    (by unfold top10; rw [hs]; decide)
    _ (by unfold notTop10; rw [hs]; decide)

/-- First call on a cache with no entry for the query: the query is executed
and stored at the front, keyed by the query text with the call's timestamp. -/
lemma run_query_miss (w : String → ResultSet) (t : ℕ) (q : String) (c : QueryCache)
    (hnone : c.find q = none) :
    run_query w t q c =
      (w q, ⟨(q, t, w q) :: c.entries.filter (fun e => !(e.1 == q))⟩, true) := by
  simp [run_query, hnone]

/-- After a miss at time `t`, the cache holds `(t, w q)` for the query text. -/
lemma find_after_store (w : String → ResultSet) (t : ℕ) (q : String) (c : QueryCache)
    (hnone : c.find q = none) :
    (run_query w t q c).2.1.find q = some (t, w q) := by
  rw [run_query_miss w t q c hnone]
  simp [QueryCache.find]

/-- C2: starting from a cache with no entry for `q`, the first call executes
against the warehouse; a second call within 600 seconds returns the identical
Result Set with no warehouse execution and leaves the cache unchanged, while a
second call at or after 600 seconds executes afresh and stores the result
under a fresh timestamp. -/
theorem run_query_ttl_cache (w : String → ResultSet) (t₁ t₂ : ℕ) (q : String)
    (c : QueryCache) (hnone : c.find q = none) :
    (run_query w t₁ q c).2.2 = true ∧
    (run_query w t₁ q c).1 = w q ∧
    (t₂ < t₁ + queryTTL →
      run_query w t₂ q (run_query w t₁ q c).2.1 =
        ((run_query w t₁ q c).1, (run_query w t₁ q c).2.1, false)) ∧
    (t₁ + queryTTL ≤ t₂ →
      (run_query w t₂ q (run_query w t₁ q c).2.1).2.2 = true ∧
      (run_query w t₂ q (run_query w t₁ q c).2.1).1 = w q ∧
      (run_query w t₂ q (run_query w t₁ q c).2.1).2.1.find q = some (t₂, w q)) := by
  have h1 := run_query_miss w t₁ q c hnone
  refine ⟨by rw [h1], by rw [h1], fun hlt => ?_, fun hge => ?_⟩
  · rw [h1]
    simp [run_query, QueryCache.find, hlt]
  · have hnlt : ¬ t₂ < t₁ + queryTTL := by omega
    refine ⟨?_, ?_, ?_⟩ <;>
      · rw [h1]
        simp [run_query, QueryCache.find, hnlt]

/-- C2 witness: with an empty cache and warehouse returning the empty Result
Set, a second call at second 100 is served from the cache unchanged, and a
second call at second 600 re-executes. -/
theorem run_query_ttl_cache_witness :
    (run_query (fun _ => ([] : ResultSet)) 100 "SELECT * FROM MENU LIMIT 10"
        (run_query (fun _ => ([] : ResultSet)) 0 "SELECT * FROM MENU LIMIT 10" ⟨[]⟩).2.1 =
      ((run_query (fun _ => ([] : ResultSet)) 0 "SELECT * FROM MENU LIMIT 10" ⟨[]⟩).1,
       (run_query (fun _ => ([] : ResultSet)) 0 "SELECT * FROM MENU LIMIT 10" ⟨[]⟩).2.1,
       false)) ∧
    (run_query (fun _ => ([] : ResultSet)) 600 "SELECT * FROM MENU LIMIT 10"
        (run_query (fun _ => ([] : ResultSet)) 0 "SELECT * FROM MENU LIMIT 10" ⟨[]⟩).2.1).2.2 =
      true :=
  ⟨(run_query_ttl_cache (fun _ => []) 0 100 "SELECT * FROM MENU LIMIT 10" ⟨[]⟩ rfl).2.2.1
      (by decide),
   ((run_query_ttl_cache (fun _ => []) 0 600 "SELECT * FROM MENU LIMIT 10" ⟨[]⟩ rfl).2.2.2
      (by decide)).1⟩

/-- After at least one call, the memoized connection handle is the one built
from the credentials on the first call. -/
lemma connCacheAfter_succ {Conn : Type} (connect : Credentials → Conn)
    (creds : Credentials) :
    ∀ n : ℕ, connCacheAfter connect creds (n + 1) = some (connect creds) := by
  intro n
  induction n with
  | zero => rfl
  | succ n ih =>
      show (init_connection connect creds (connCacheAfter connect creds (n + 1))).2.1 =
        some (connect creds)
      rw [ih]
      rfl

/-- C4: the first call of the Connection Provider authenticates with the
supplied credentials and caches the handle; every later call within the
process lifetime returns that same handle with no re-authentication, for as
long as the cache is not invalidated. -/
theorem init_connection_memoized {Conn : Type} (connect : Credentials → Conn)
    (creds : Credentials) :
    init_connection connect creds none = (connect creds, some (connect creds), true) ∧
    ∀ n : ℕ,
      init_connection connect creds (connCacheAfter connect creds (n + 1)) =
        (connect creds, some (connect creds), false) := by
  refine ⟨rfl, fun n => ?_⟩
  rw [connCacheAfter_succ connect creds n]
  rfl

/-- C3 counterexample: the claim fails on the dashboard's initial canned
query.  In an environment whose connection succeeds but whose queries fail,
the tab-1 `run_query` call — which has no `try/except` — lets the failure
escape and abort the script run, instead of reporting it inline. -/
theorem appRun_canned_query_crash :
    appRun badQueryEnv false "SELECT 1" =
      RunOutcome.crashed "002003 (42S02): SQL compilation error" ∧
    appRun badQueryEnv false "SELECT 1" ≠
      RunOutcome.rendered
        ["❌ Erro ao executar query:", "002003 (42S02): SQL compilation error"] :=
  ⟨rfl, by decide⟩

/-- C3 amended: a connection failure at startup is fatal and halts the
session; a failure of the tab-3 ad-hoc query is reported inline with the raw
driver error text and the script completes; but a failure of the dashboard's
initial canned query (tab 1, unguarded) aborts the script run. -/
theorem appRun_error_flow (env : Env) (qt e : String) :
    (env.connect = .error e → appRun env true qt = .halted ("❌ Erro: " ++ e)) ∧
    (env.connect = .ok () → env.query menuQuery = .error e →
      appRun env true qt = .crashed e) ∧
    (∀ df : ResultSet, env.connect = .ok () → env.query menuQuery = .ok df →
      env.query qt = .error e →
      appRun env true qt = .rendered ["❌ Erro ao executar query:", e]) ∧
    (∀ df df' : ResultSet, env.connect = .ok () → env.query menuQuery = .ok df →
      env.query qt = .ok df' → appRun env true qt = .rendered []) := by
  refine ⟨fun h => ?_, fun hc hq => ?_, fun df hc hq hqt => ?_,
    fun df df' hc hq hqt => ?_⟩
  · simp [appRun, h]
  · simp [appRun, hc, hq]
  · simp [appRun, hc, hq, hqt]
  · simp [appRun, hc, hq, hqt]

/-- C3 amended witness: a failed connection halts with the error shown, and a
failed tab-3 query is rendered inline while the run completes. -/
theorem appRun_error_flow_witness :
    appRun connFailEnv true "SELECT 1" =
      .halted ("❌ Erro: " ++ "250001 (08001): Failed to connect to DB") ∧
    appRun tab3FailEnv true "SELECT * FROM NOPE" =
      .rendered ["❌ Erro ao executar query:", "invalid identifier"] :=
  ⟨(appRun_error_flow connFailEnv "SELECT 1" "250001 (08001): Failed to connect to DB").1
      rfl,
   (appRun_error_flow tab3FailEnv "SELECT * FROM NOPE" "invalid identifier").2.2.1 []
      rfl (by simp +decide [tab3FailEnv, menuQuery]) (by simp [tab3FailEnv])⟩

/-- Parsing an unquoted serialized cell stops exactly at the following comma
or line break and recovers the cell. -/
lemma parseUnquoted_encode (f rest : List Char)
    (hf : f.any isCsvSpecial = false)
    (hr : rest.head? = some ',' ∨ rest.head? = some '\n') :
    parseUnquoted (f ++ rest) = (f, rest) := by
  induction f with
  | nil =>
      cases rest with
      | nil => simp at hr
      | cons c rest' =>
          rcases hr with h | h <;>
          · simp at h
            subst h
            simp [parseUnquoted]
  | cons c f ih =>
      have hc : isCsvSpecial c = false ∧ f.any isCsvSpecial = false := by
        simpa [List.any_cons, Bool.or_eq_false_iff] using hf
      have hcomma : ¬ (c = ',' ∨ c = '\n') := by
        intro h
        rcases h with h | h <;> simp [isCsvSpecial, h] at hc
      simp only [List.cons_append, parseUnquoted]
      rw [if_neg (by simpa using hcomma)]
      simp [ih hc.2]

/-- Parsing a quoted serialized cell undoes the quote doubling and stops at
the closing quote. -/
lemma parseQuoted_encode (f : List Char) :
    ∀ (acc rest : List Char), rest.head? ≠ some '"' →
    parseQuoted acc (quoteBody f ++ '"' :: rest) = some (acc ++ f, rest) := by
  induction f with
  | nil =>
      intro acc rest hr
      cases rest with
      | nil => simp [quoteBody, parseQuoted]
      | cons c' rest' =>
          have hne : ¬ c' = '"' := by
            intro h
            exact hr (by simp [h])
          simp [quoteBody, parseQuoted, hne]
  | cons c f ih =>
      intro acc rest hr
      by_cases hc : c = '"'
      · subst hc
        have hih := ih (acc ++ ['"']) rest hr
        simp only [quoteBody, if_pos rfl, List.cons_append]
        simp [parseQuoted, hih]
      · have hih := ih (acc ++ [c]) rest hr
        simp only [quoteBody, if_neg hc, List.cons_append]
        rw [parseQuoted.eq_def]
        simp only [if_neg hc]
        simpa using hih

/-- Parsing one serialized cell (in either form) recovers the cell. -/
lemma parseField_encode (f rest : List Char)
    (hr : rest.head? = some ',' ∨ rest.head? = some '\n') :
    parseField (escapeField f ++ rest) = some (f, rest) := by
  by_cases hq : f.any isCsvSpecial
  · have hrq : rest.head? ≠ some '"' := by
      rcases hr with h | h <;> simp [h]
    simp only [escapeField, if_pos hq, List.cons_append, List.append_assoc,
      List.singleton_append]
    rw [parseField]
    simp only [if_pos rfl]
    simpa using parseQuoted_encode f [] rest hrq
  · have hu := parseUnquoted_encode f rest (by simpa using hq) hr
    simp only [escapeField, if_neg hq]
    cases f with
    | nil =>
        cases rest with
        | nil => simp at hr
        | cons c rest' =>
            have hc : ¬ c = '"' := by
              rcases hr with h | h <;> · simp at h; subst h; decide
            simp only [List.nil_append] at hu ⊢
            rw [parseField]
            simp [hc, hu]
    | cons c f' =>
        have hc : ¬ c = '"' := by
          intro h
          simp [List.any_cons, h, isCsvSpecial] at hq
        simp only [List.cons_append] at hu ⊢
        rw [parseField]
        simp [hc, hu]

/-- Parsing one serialized record recovers its cells and consumes the
terminating line break, given fuel at least the number of cells. -/
lemma parseRecord_encode :
    ∀ (r : List (List Char)) (rest : List Char) (fuel : ℕ), r ≠ [] → r.length ≤ fuel →
      parseRecord fuel (encodeRow r ++ '\n' :: rest) = some (r, rest) := by
  intro r
  induction r with
  | nil => intro rest fuel h _; exact absurd rfl h
  | cons f r' ih =>
      intro rest fuel _ hfuel
      cases fuel with
      | zero => simp at hfuel
      | succ fuel =>
          cases r' with
          | nil =>
              have hf := parseField_encode f ('\n' :: rest) (by simp)
              rw [parseRecord]
              simp only [encodeRow, hf]
          | cons g r'' =>
              have hf := parseField_encode f
                (',' :: (encodeRow (g :: r'') ++ '\n' :: rest)) (by simp)
              have hrec := ih rest fuel (by simp) (by simpa using Nat.le_of_succ_le_succ hfuel)
              rw [parseRecord]
              simp only [encodeRow, List.append_assoc, List.cons_append] at hf ⊢
              rw [hf]
              simp [hrec]

/-- A nonempty record serializes to at least one character per cell beyond the
first. -/
lemma encodeRow_length (r : List (List Char)) (h : r ≠ []) :
    r.length ≤ (encodeRow r).length + 1 := by
  induction r with
  | nil => exact absurd rfl h
  | cons f r' ih =>
      cases r' with
      | nil => simp [encodeRow]
      | cons g r'' =>
          have := ih (by simp)
          simp only [encodeRow, List.length_append, List.length_cons] at this ⊢
          omega

/-- Each serialized record contributes at least its line break. -/
lemma encodeCsv_length (t : List (List (List Char))) :
    t.length ≤ (encodeCsv t).length := by
  induction t with
  | nil => simp [encodeCsv]
  | cons r t' ih =>
      simp only [encodeCsv, List.length_append, List.length_cons]
      omega

/-- Parsing a serialized table of nonempty records recovers the table, given
fuel at least the number of records. -/
lemma parseRows_encode :
    ∀ (t : List (List (List Char))) (fuel : ℕ), (∀ r ∈ t, r ≠ []) → t.length ≤ fuel →
      parseRows fuel (encodeCsv t) = some t := by
  intro t
  induction t with
  | nil => intro fuel _ _; cases fuel <;> rfl
  | cons r t' ih =>
      intro fuel hne hfuel
      cases fuel with
      | zero => simp at hfuel
      | succ fuel =>
          have hrne : r ≠ [] := hne r (by simp)
          have hcs : encodeCsv (r :: t') = encodeRow r ++ '\n' :: encodeCsv t' := rfl
          have hlen : r.length ≤ (encodeRow r ++ '\n' :: encodeCsv t').length + 1 := by
            have := encodeRow_length r hrne
            simp only [List.length_append, List.length_cons]
            omega
          have hrec := parseRecord_encode r (encodeCsv t')
            ((encodeRow r ++ '\n' :: encodeCsv t').length + 1) hrne hlen
          have hih := ih fuel (fun x hx => hne x (by simp [hx]))
            (by simpa using Nat.le_of_succ_le_succ hfuel)
          rw [hcs]
          cases henc : encodeRow r with
          | nil =>
              rw [henc] at hrec
              simp only [List.nil_append] at hrec ⊢
              rw [parseRows]
              all_goals simp_all
          | cons c cs' =>
              rw [henc] at hrec
              simp only [List.cons_append] at hrec ⊢
              rw [parseRows]
              all_goals simp_all

/-- CSV round trip at the character level: parsing a serialized table of
nonempty records recovers the table. -/
lemma parseCsv_encode (t : List (List (List Char))) (hne : ∀ r ∈ t, r ≠ []) :
    parseCsv (encodeCsv t) = some t :=
  parseRows_encode t (encodeCsv t).length hne (encodeCsv_length t)

/-- CSV round trip at the string level. -/
lemma parseCsvStr_encodeCsvStr (t : List (List String)) (hne : ∀ r ∈ t, r ≠ []) :
    parseCsvStr (encodeCsvStr t) = some t := by
  have hmk : ∀ s : String, String.mk s.data = s := fun s => rfl
  unfold parseCsvStr encodeCsvStr
  rw [show (String.mk (encodeCsv (t.map (fun r => r.map String.data)))).data =
      encodeCsv (t.map (fun r => r.map String.data)) from rfl]
  rw [parseCsv_encode]
  · simp [List.map_map, Function.comp_def, hmk]
  · intro r hr
    simp only [List.mem_map] at hr
    obtain ⟨r', hr', hrr⟩ := hr
    subst hrr
    have := hne r' hr'
    simpa using this

/-- C5: the CSV export payload of every filtered subset is comma-separated
with a leading header row, and parsing it back reproduces the filtered
subset's rows and columns exactly (cells compared after display formatting);
the download file name is stamped with the formatted current date-time. -/
theorem csv_export_roundtrip (df : ResultSet) (F : FilterParams) :
    parseCsvStr (csvPayload df F) = some (csvTable (df_filtrado df F)) ∧
    (csvTable (df_filtrado df F)).head? = some csvHeader ∧
    ∀ ts : String, (exportFileName ts).data =
      ("tastybytes_filtrado_".data ++ ts.data) ++ ".csv".data := by
  refine ⟨?_, rfl, fun ts => ?_⟩
  · apply parseCsvStr_encodeCsvStr
    intro r hr
    simp only [csvTable, List.mem_cons, List.mem_map] at hr
    rcases hr with h | ⟨x, _, h⟩
    · subst h; simp [csvHeader]
    · subst h; simp [rowCells]
  · simp [exportFileName]
